import Mathlib

/-!
Shallow embedding of `golang-mixins/servers`, file `http/std/server.go`.

The Go code wraps a standard-library HTTP server behind a lifecycle
controller with `Serve` and a two-phase `Stop` (graceful shutdown, then a
forced close raced against a timer).  We embed it as pure Lean functions:

* interface values that can be `nil` become `Option` fields;
* `time.Duration` (an `int64`) becomes `Int`; no arithmetic is performed
  on durations, so overflow is irrelevant;
* the external world (the result of `http.Shutdown`, the result of
  `http.Close`, and which arm of the `select` fires first) is an explicit
  environment record `StopEnv`;
* every externally visible action of a call (span start/end, mutex
  lock/unlock, log lines written to the error log, operations invoked on
  the underlying listener, timer creation) is recorded in an event trace,
  in program order as the goroutine executing `Stop` observes it;
* Go runtime panics (nil-pointer dereference, reached when the methods
  run on a `Server` that was not built by `New`, as the code comment on
  the `Server` struct warns) are modelled by `Except GoPanic`.
-/

/-- A Go error value: either a fresh error with a message
(`xerrors.New`) or a wrapping error (`xerrors.Errorf` with a `%w` verb),
holding the text before the colon and the wrapped error. -/
inductive GoErr where
  | mk (msg : String)
  | wrap (pfx : String) (inner : GoErr)
  deriving DecidableEq, Repr

/-- Rendering of a Go error to its message string (`err.Error()`):
`xerrors.Errorf("p: %w", e)` renders as `"p: " ++ e.Error()`. -/
def GoErr.error : GoErr → String
  | .mk m => m
  | .wrap p inner => p ++ ": " ++ inner.error

/-- A Go runtime panic.  The only panics reachable in this code are nil
dereferences (nil `mutex` pointer, nil `http` pointer, nil `ErrorLog`). -/
inductive GoPanic where
  | nilDeref
  deriving DecidableEq, Repr

/-- An `io.Writer` interface value (opaque; only its identity matters). -/
structure GoWriter where
  id : Nat
  deriving DecidableEq, Repr

/-- An `http.Handler` interface value (opaque; only its identity matters). -/
structure GoHandler where
  id : Nat
  deriving DecidableEq, Repr

/-- A `log.Logger` as configured by `log.New`: output writer, prefix
string, and flag bits. -/
structure GoLogger where
  out : GoWriter
  pfx : String
  flags : Nat
  deriving DecidableEq, Repr

/-- `log.Ldate` -/
def logLdate : Nat := 1
/-- `log.Ltime` -/
def logLtime : Nat := 2
/-- `log.Lmicroseconds` -/
def logLmicroseconds : Nat := 4
/-- `log.Llongfile` -/
def logLlongfile : Nat := 8
/-- `log.Lshortfile` -/
def logLshortfile : Nat := 16
/-- `log.LstdFlags = Ldate | Ltime` -/
def logLstdFlags : Nat := logLdate ||| logLtime

/-- `Config` from `server.go`: operator-supplied settings.  Durations are
`time.Duration` = `int64`, embedded as `Int`; nilable interface fields are
`Option`. -/
structure Config where
  Addr : String
  ReadTimeout : Int
  ReadHeaderTimeout : Int
  WriteTimeout : Int
  IdleTimeout : Int
  StopTimeout : Int
  MaxHeaderBytes : Int
  ErrorsOutput : Option GoWriter
  Router : Option GoHandler
  KeepAliveEnabled : Bool
  deriving DecidableEq, Repr

/-- `c` is an ASCII digit: the character class `[0-9]` of the Go regexp. -/
def goDigit (c : Char) : Bool := '0' ≤ c && c ≤ '9'

/-- Translation of `regexp.MustCompile(` ++ "`^:[0-9]+$`" ++ `).MatchString s`:
the anchors force the whole string to be a colon followed by one or more
ASCII digits. -/
def addrRegExpMatch (s : String) : Bool :=
  match s.data with
  | [] => false
  | c :: rest => c == ':' && !rest.isEmpty && rest.all goDigit

/-- `Config.Validate` from `server.go` lines 31-49, checks in source
order; `none` means the `nil` error. -/
def Config.Validate (c : Config) : Option GoErr :=
  if c.Router = none then some (.mk ("Router can\x27t be nil"))
  else if c.StopTimeout = 0 then some (.mk ("StopTimeout can\x27t be empty"))
  else if !(addrRegExpMatch c.Addr) then some (.mk ("RegExp: Addr must be in a valid format"))
  else if c.ErrorsOutput = none then some (.mk ("ErrorsOutput can\x27t be nil"))
  else none

/-- The mutable state of the wrapped `http.Server` that this code reads
or writes, plus the configuration fields `New` copies into it.  A fresh
`http.Server{}` composite literal starts from Go zero values
(`httpServerZero` below). -/
structure HttpSrv where
  addr : String
  handler : Option GoHandler
  errorLog : Option GoLogger
  readTimeout : Int
  readHeaderTimeout : Int
  writeTimeout : Int
  idleTimeout : Int
  maxHeaderBytes : Int
  keepAlivesEnabled : Bool
  deriving DecidableEq, Repr

/-- The zero value of the embedded `http.Server` fields: numeric fields
`0`, pointers `nil`, and keep-alives enabled (the transport default). -/
def httpServerZero : HttpSrv :=
  { addr := ""
    handler := none
    errorLog := none
    readTimeout := 0
    readHeaderTimeout := 0
    writeTimeout := 0
    idleTimeout := 0
    maxHeaderBytes := 0
    keepAlivesEnabled := true }

/-- `Server` from `server.go` lines 53-58.  `mutexPtr` records whether
the `*sync.RWMutex` pointer is non-nil (it is nil in a zero-value
`Server`, in which case `Stop` panics); `httpPtr` is the nilable
`*http.Server`. -/
structure Server where
  stopTimeout : Int
  mutexPtr : Bool
  shutdown : Bool
  httpPtr : Option HttpSrv
  deriving DecidableEq, Repr

/-- A `context.Context` as far as this code can observe it: whether it is
already cancelled and its deadline, if any.  `Stop` only hands it to
`trace.StartSpan`. -/
structure GoContext where
  cancelled : Bool
  deadline : Option Int
  deriving DecidableEq, Repr

/-- Externally visible events of one call, in the program order of the
calling goroutine.  `opShutdown`, `opClose`, `opSetKeepAlives` and
`opListenAndServe` are the operations invoked on the underlying listener;
`ctxWithTimeout d` and `timerNew d` record the duration `d` given to
`context.WithTimeout` and `time.NewTimer`; `raceBegin` is the entry into
the `select` racing the forced close against the timer. -/
inductive Ev where
  | startSpan
  | spanEnd
  | lock
  | unlock
  | setFlag
  | logLine (line : String)
  | ctxWithTimeout (d : Int)
  | ctxCancel
  | opShutdown
  | timerNew (d : Int)
  | timerStop
  | raceBegin
  | opClose
  | opSetKeepAlives (b : Bool)
  | closeRecv
  | timerFired
  | opListenAndServe
  deriving DecidableEq, Repr

/-- Is this event an operation on the underlying listener? -/
def Ev.isListenerOp : Ev → Bool
  | .opShutdown => true
  | .opClose => true
  | .opSetKeepAlives _ => true
  | .opListenAndServe => true
  | _ => false

/-- `e` occurs in `evs`. -/
def containsEv (e : Ev) (evs : List Ev) : Bool :=
  evs.any (fun x => x == e)

/-- The first occurrence of `a` in the list comes strictly before an
occurrence of `b` (both must occur). -/
def precedes (a b : Ev) : List Ev → Bool
  | [] => false
  | x :: xs => if x == a then containsEv b xs
               else if x == b then false
               else precedes a b xs

/-- The environment a `Stop` call runs in: what `s.http.Shutdown(ctx)`
returns, what `s.http.Close()` returns, and whether the `timer.C` arm of
the `select` fires before the `closing` channel delivers. -/
structure StopEnv where
  shutdownResult : Option GoErr
  closeResult : Option GoErr
  timerFirst : Bool
  deriving DecidableEq, Repr

/-- Result of a non-panicking `Stop` call: the updated controller, the
returned error (`none` = `nil`), the event trace, whether a forced-close
goroutine was left running (abandoned) at return, and the context the
tracing span was started from. -/
structure StopResult where
  server : Server
  ret : Option GoErr
  events : List Ev
  abandonedCloseTask : Bool
  spanCtx : GoContext
  deriving DecidableEq, Repr

/-- The behaviourally relevant part of a `StopResult` (everything except
the tracing span). -/
def StopResult.core (r : StopResult) : Server × Option GoErr × List Ev × Bool :=
  (r.server, r.ret, r.events, r.abandonedCloseTask)

/-- The error built by `xerrors.Errorf("can\x27t close http server: %w", ...)`
wrapping `xerrors.Errorf("error closing: %w", e)`: the error `Stop`
returns when the forced close reports `e`. -/
def forcedCloseError (e : GoErr) : GoErr :=
  .wrap ("can\x27t close http server") (.wrap ("error closing") e)

/-- `xerrors.New("can\x27t close http server, timeout exceeded")`: the error
`Stop` returns when the timer beats the forced close. -/
def shutdownTimeoutError : GoErr :=
  .mk ("can\x27t close http server, timeout exceeded")

/-- `Server.Stop` from `server.go` lines 74-129.

Control flow of the source, in order: start a tracing span from the
caller context (deferred `span.End`); `s.mutex.Lock()` (nil mutex pointer
panics; deferred `Unlock` runs at return, after the function body); if
the `shutdown` flag is set return `nil`; otherwise log, set the flag,
build a fresh `context.WithTimeout(Background, s.stopTimeout)`, and call
`s.http.Shutdown`.  On graceful success return `nil`.  Otherwise create a
timer of `s.stopTimeout`, spawn the forced-close goroutine
(`Close`, wrap error, `SetKeepAlivesEnabled(false)`, send on `closing`),
and `select`: if the channel wins, return the (doubly wrapped) close
error, `nil` on a clean close; if the timer wins, return the timeout
error and abandon the goroutine.  Deferred calls run last-in-first-out:
`timer.Stop`, `cancel`, `mutex.Unlock`, `span.End`. -/
def Server.Stop (s : Server) (ctx : GoContext) (env : StopEnv) :
    Except GoPanic StopResult :=
  match s.mutexPtr, s.shutdown, s.httpPtr with
  | false, _, _ => .error .nilDeref
  | true, true, _ =>
    .ok { server := s
          ret := none
          events := [.startSpan, .lock, .unlock, .spanEnd]
          abandonedCloseTask := false
          spanCtx := ctx }
  | true, false, none => .error .nilDeref
  | true, false, some h =>
    match h.errorLog with
    | none => .error .nilDeref
    | some _ =>
      let s1 : Server := { s with shutdown := true }
      match env.shutdownResult with
      | none =>
        .ok { server := s1
              ret := none
              events := [.startSpan, .lock,
                .logLine ("starting shutdown http server"), .setFlag,
                .ctxWithTimeout s.stopTimeout, .opShutdown,
                .logLine ("shutdown successful"),
                .ctxCancel, .unlock, .spanEnd]
              abandonedCloseTask := false
              spanCtx := ctx }
      | some gerr =>
        if env.timerFirst then
          .ok { server := s1
                ret := some shutdownTimeoutError
                events := [.startSpan, .lock,
                  .logLine ("starting shutdown http server"), .setFlag,
                  .ctxWithTimeout s.stopTimeout, .opShutdown,
                  .logLine ("shutdown error: " ++ gerr.error),
                  .timerNew s.stopTimeout, .raceBegin, .timerFired,
                  .logLine ("closing timeout exceeded error: " ++ shutdownTimeoutError.error),
                  .timerStop, .ctxCancel, .unlock, .spanEnd]
                abandonedCloseTask := true
                spanCtx := ctx }
        else
          let ret : Option GoErr := env.closeResult.map forcedCloseError
          .ok { server := { s1 with httpPtr := some { h with keepAlivesEnabled := false } }
                ret := ret
                events := [.startSpan, .lock,
                  .logLine ("starting shutdown http server"), .setFlag,
                  .ctxWithTimeout s.stopTimeout, .opShutdown,
                  .logLine ("shutdown error: " ++ gerr.error),
                  .timerNew s.stopTimeout, .raceBegin,
                  .opClose, .opSetKeepAlives false, .closeRecv,
                  .logLine (match ret with
                    | some e => "closing error: " ++ e.error
                    | none => "closing successful"),
                  .timerStop, .ctxCancel, .unlock, .spanEnd]
                abandonedCloseTask := false
                spanCtx := ctx }

/-- The environment a `Serve` call runs in: what
`s.http.ListenAndServe()` returns (`none` = `nil`). -/
structure ServeEnv where
  listenAndServeResult : Option GoErr
  deriving DecidableEq, Repr

/-- `Server.Serve` from `server.go` lines 61-71: call `ListenAndServe`
(nil `http` pointer panics); on error, rebuild the error with
`xerrors.New(err.Error())`, log it and return it; on a `nil` return, log
the unexpected exit and return `nil`.  Logging panics if `ErrorLog` is
nil. -/
def Server.Serve (s : Server) (env : ServeEnv) :
    Except GoPanic (Option GoErr × List Ev) :=
  match s.httpPtr with
  | none => .error .nilDeref
  | some h =>
    match h.errorLog with
    | none => .error .nilDeref
    | some _ =>
      match env.listenAndServeResult with
      | some e =>
        let e2 : GoErr := .mk e.error
        .ok (some e2,
          [.opListenAndServe, .logLine ("error ListenAndServe: " ++ e2.error)])
      | none =>
        .ok (none, [.opListenAndServe, .logLine ("unexpected exit ListenAndServe")])

/-- `New` from `server.go` lines 132-169: validate, then build the
controller and the underlying `http.Server` (starting from Go zero
values, with `Addr` and `GoHandler` set in the composite literal), install
the error logger, copy each optional duration/size field only when it is
non-zero, and always call `SetKeepAlivesEnabled` with the configured
boolean.  The returned event list holds the operations `New` itself
performs on the listener.  `New` never calls `ListenAndServe`. -/
def New (cfg : Config) : Except GoErr (Server × List Ev) :=
  match cfg.Validate with
  | some e => .error e
  | none =>
    let h0 : HttpSrv := { httpServerZero with addr := cfg.Addr, handler := cfg.Router }
    let logger : GoLogger :=
      { out := cfg.ErrorsOutput.getD ⟨0⟩
        pfx := "Golang HTTP standard server: "
        flags := logLstdFlags ||| logLmicroseconds ||| logLlongfile ||| logLshortfile }
    let h1 : HttpSrv := { h0 with errorLog := some logger }
    let h2 : HttpSrv := if cfg.ReadTimeout ≠ 0 then { h1 with readTimeout := cfg.ReadTimeout } else h1
    let h3 : HttpSrv := if cfg.ReadHeaderTimeout ≠ 0 then { h2 with readHeaderTimeout := cfg.ReadHeaderTimeout } else h2
    let h4 : HttpSrv := if cfg.WriteTimeout ≠ 0 then { h3 with writeTimeout := cfg.WriteTimeout } else h3
    let h5 : HttpSrv := if cfg.IdleTimeout ≠ 0 then { h4 with idleTimeout := cfg.IdleTimeout } else h4
    let h6 : HttpSrv := if cfg.MaxHeaderBytes ≠ 0 then { h5 with maxHeaderBytes := cfg.MaxHeaderBytes } else h5
    let h7 : HttpSrv := { h6 with keepAlivesEnabled := cfg.KeepAliveEnabled }
    .ok ({ stopTimeout := cfg.StopTimeout
           mutexPtr := true
           shutdown := false
           httpPtr := some h7 },
         [.opSetKeepAlives cfg.KeepAliveEnabled])

/-- A `Server` on which the methods are safe to call: non-nil mutex
pointer, non-nil `http` pointer, non-nil `ErrorLog`.  Every server built
by `New` satisfies this, and `Stop` preserves it. -/
def Server.wellFormed (s : Server) : Bool :=
  s.mutexPtr && (match s.httpPtr with
    | some h => h.errorLog.isSome
    | none => false)

/-- Does this call return without a Go panic? -/
def noPanic {α : Type} : Except GoPanic α → Bool
  | .ok _ => true
  | .error _ => false

/-! ### Concrete fixtures used by witnesses and counterexamples -/

/-- A concrete caller context: live, no deadline. -/
def ctx0 : GoContext := { cancelled := false, deadline := none }

/-- A concrete caller context that is already cancelled and carries a
short deadline. -/
def ctxCancelled : GoContext := { cancelled := true, deadline := some 1 }

/-- Environment: graceful shutdown succeeds. -/
def envGraceful : StopEnv :=
  { shutdownResult := none, closeResult := none, timerFirst := false }

/-- Environment: graceful shutdown fails, forced close wins the race and
succeeds. -/
def envCloseClean : StopEnv :=
  { shutdownResult := some (.mk ("context deadline exceeded"))
    closeResult := none
    timerFirst := false }

/-- Environment: graceful shutdown fails, forced close wins the race but
itself reports an error. -/
def envCloseErr : StopEnv :=
  { shutdownResult := some (.mk ("context deadline exceeded"))
    closeResult := some (.mk ("close failed"))
    timerFirst := false }

/-- Environment: graceful shutdown fails and the timer beats the forced
close. -/
def envTimeout : StopEnv :=
  { shutdownResult := some (.mk ("context deadline exceeded"))
    closeResult := none
    timerFirst := true }

/-- Environment for `Serve`: `ListenAndServe` returns an error. -/
def senvErr : ServeEnv :=
  { listenAndServeResult := some (.mk ("listen tcp :8080: bind: address already in use")) }

/-- A concrete valid configuration (testable property 7 of the spec). -/
def cfg0 : Config :=
  { Addr := ":8080"
    ReadTimeout := 0
    ReadHeaderTimeout := 0
    WriteTimeout := 0
    IdleTimeout := 0
    StopTimeout := 5
    MaxHeaderBytes := 0
    ErrorsOutput := some ⟨1⟩
    Router := some ⟨1⟩
    KeepAliveEnabled := true }

/-- A concrete configuration with a nil `Router`. -/
def cfgNoRouter : Config := { cfg0 with Router := none }

/-- The logger `New cfg0` installs. -/
def lgW : GoLogger :=
  { out := ⟨1⟩
    pfx := "Golang HTTP standard server: "
    flags := logLstdFlags ||| logLmicroseconds ||| logLlongfile ||| logLshortfile }

/-- The `http.Server` state `New cfg0` builds. -/
def hsW : HttpSrv :=
  { addr := ":8080"
    handler := some ⟨1⟩
    errorLog := some lgW
    readTimeout := 0
    readHeaderTimeout := 0
    writeTimeout := 0
    idleTimeout := 0
    maxHeaderBytes := 0
    keepAlivesEnabled := true }

/-- The controller `New cfg0` returns. -/
def srvW : Server :=
  { stopTimeout := 5, mutexPtr := true, shutdown := false, httpPtr := some hsW }

/-- A zero-value `Server`, as Go produces for `var s server.Server` or
`&server.Server{}`: nil mutex pointer, nil `http` pointer. -/
def srvZero : Server :=
  { stopTimeout := 0, mutexPtr := false, shutdown := false, httpPtr := none }

example : New cfg0 = .ok (srvW, [.opSetKeepAlives true]) := rfl

/-! ### Characterization lemmas: one per execution path of `Stop` -/

/-- `Stop` on a controller whose shutdown flag is already set: acquire
and release the lock, return `nil`, touch nothing. -/
theorem stop_already_shutdown (s : Server) (ctx : GoContext) (env : StopEnv)
    (hm : s.mutexPtr = true) (hsh : s.shutdown = true) :
    s.Stop ctx env = .ok
      { server := s, ret := none
        events := [.startSpan, .lock, .unlock, .spanEnd]
        abandonedCloseTask := false, spanCtx := ctx } := by
  obtain ⟨t, m, sh, hp⟩ := s
  cases hm; cases hsh
  rfl

/-- First `Stop` call, graceful phase succeeds: flag set, `nil`
returned, forced path untouched. -/
theorem stop_graceful (s : Server) (hs : HttpSrv) (lg : GoLogger)
    (ctx : GoContext) (env : StopEnv)
    (hm : s.mutexPtr = true) (hsh : s.shutdown = false)
    (hp : s.httpPtr = some hs) (hl : hs.errorLog = some lg)
    (hg : env.shutdownResult = none) :
    s.Stop ctx env = .ok
      { server := { s with shutdown := true }, ret := none
        events := [.startSpan, .lock,
          .logLine ("starting shutdown http server"), .setFlag,
          .ctxWithTimeout s.stopTimeout, .opShutdown,
          .logLine ("shutdown successful"),
          .ctxCancel, .unlock, .spanEnd]
        abandonedCloseTask := false, spanCtx := ctx } := by
  obtain ⟨t, m, sh, hp'⟩ := s
  obtain ⟨sr, cr, tf⟩ := env
  simp only at hp hg
  cases hm; cases hsh; cases hp; cases hg
  simp only [Server.Stop, hl]

/-- First `Stop` call, graceful phase fails, timer beats the forced
close: flag set, timeout error returned, goroutine abandoned. -/
theorem stop_timer_first (s : Server) (hs : HttpSrv) (lg : GoLogger) (g : GoErr)
    (ctx : GoContext) (env : StopEnv)
    (hm : s.mutexPtr = true) (hsh : s.shutdown = false)
    (hp : s.httpPtr = some hs) (hl : hs.errorLog = some lg)
    (hg : env.shutdownResult = some g) (ht : env.timerFirst = true) :
    s.Stop ctx env = .ok
      { server := { s with shutdown := true }
        ret := some shutdownTimeoutError
        events := [.startSpan, .lock,
          .logLine ("starting shutdown http server"), .setFlag,
          .ctxWithTimeout s.stopTimeout, .opShutdown,
          .logLine ("shutdown error: " ++ g.error),
          .timerNew s.stopTimeout, .raceBegin, .timerFired,
          .logLine ("closing timeout exceeded error: " ++ shutdownTimeoutError.error),
          .timerStop, .ctxCancel, .unlock, .spanEnd]
        abandonedCloseTask := true, spanCtx := ctx } := by
  obtain ⟨t, m, sh, hp'⟩ := s
  obtain ⟨sr, cr, tf⟩ := env
  simp only at hp hg ht
  cases hm; cases hsh; cases hp; cases hg; cases ht
  simp [Server.Stop, hl]

/-- First `Stop` call, graceful phase fails, forced close wins the race:
flag set, keep-alives disabled, the (wrapped) close result returned. -/
theorem stop_close_first (s : Server) (hs : HttpSrv) (lg : GoLogger) (g : GoErr)
    (ctx : GoContext) (env : StopEnv)
    (hm : s.mutexPtr = true) (hsh : s.shutdown = false)
    (hp : s.httpPtr = some hs) (hl : hs.errorLog = some lg)
    (hg : env.shutdownResult = some g) (ht : env.timerFirst = false) :
    s.Stop ctx env = .ok
      { server := { s with shutdown := true,
                           httpPtr := some { hs with keepAlivesEnabled := false } }
        ret := env.closeResult.map forcedCloseError
        events := [.startSpan, .lock,
          .logLine ("starting shutdown http server"), .setFlag,
          .ctxWithTimeout s.stopTimeout, .opShutdown,
          .logLine ("shutdown error: " ++ g.error),
          .timerNew s.stopTimeout, .raceBegin,
          .opClose, .opSetKeepAlives false, .closeRecv,
          .logLine (match env.closeResult.map forcedCloseError with
            | some e => "closing error: " ++ e.error
            | none => "closing successful"),
          .timerStop, .ctxCancel, .unlock, .spanEnd]
        abandonedCloseTask := false, spanCtx := ctx } := by
  obtain ⟨t, m, sh, hp'⟩ := s
  obtain ⟨sr, cr, tf⟩ := env
  simp only at hp hg ht
  cases hm; cases hsh; cases hp; cases hg; cases ht
  simp [Server.Stop, hl]

/-- `Stop` panics (nil mutex dereference) when the mutex pointer is nil. -/
theorem stop_nil_mutex (s : Server) (ctx : GoContext) (env : StopEnv)
    (hm : s.mutexPtr = false) :
    s.Stop ctx env = .error .nilDeref := by
  obtain ⟨t, m, sh, hp⟩ := s
  cases hm
  rfl

/-- Any `Stop` call that returns (rather than panicking) leaves the
shutdown flag set, the mutex pointer intact, and the stop-timeout
unchanged. -/
theorem stop_ok_flag (s : Server) (ctx : GoContext) (env : StopEnv)
    (r : StopResult) (h : s.Stop ctx env = .ok r) :
    r.server.shutdown = true ∧ r.server.mutexPtr = true ∧
    r.server.stopTimeout = s.stopTimeout := by
  obtain ⟨t, m, sh, hp⟩ := s
  obtain ⟨sr, cr, tf⟩ := env
  cases m
  · simp [Server.Stop] at h
  · cases sh
    · rcases hp with _ | hs
      · simp [Server.Stop] at h
      · rcases hE : hs.errorLog with _ | lg
        · simp [Server.Stop, hE] at h
        · rcases sr with _ | g
          · simp [Server.Stop, hE] at h
            subst h
            exact ⟨rfl, rfl, rfl⟩
          · cases tf
            · simp [Server.Stop, hE] at h
              subst h
              exact ⟨rfl, rfl, rfl⟩
            · simp [Server.Stop, hE] at h
              subst h
              exact ⟨rfl, rfl, rfl⟩
    · simp [Server.Stop] at h
      subst h
      exact ⟨rfl, rfl, rfl⟩

/-! ### The claims -/

/-- C1: `Validate` (and hence `New`) fails exactly when the router is
nil, or the stop-timeout is zero, or the bind address fails the anchored
`:<one-or-more digits>` pattern, or the error sink is nil; on any such
`Config`, `New` returns the validation error and constructs nothing (in
particular, no listener operation is performed), while a valid `Config`
constructs a server.  The pattern performs no 0-65535 port-range check:
`":99999"` is accepted. -/
theorem claim1_validate_exactly (c : Config) :
    (c.Validate = none ↔
      (c.Router ≠ none ∧ c.StopTimeout ≠ 0 ∧ addrRegExpMatch c.Addr = true ∧
        c.ErrorsOutput ≠ none)) ∧
    (∀ e, c.Validate = some e → New c = .error e) ∧
    (c.Validate = none → ∃ srv evs, New c = .ok (srv, evs)) ∧
    addrRegExpMatch (":99999") = true := by
  refine ⟨?_, ?_, ?_, by decide⟩
  · unfold Config.Validate
    split_ifs with h1 h2 h3 h4 <;> simp_all
  · intro e he
    simp [New, he]
  · intro hv
    simp only [New, hv]
    exact ⟨_, _, rfl⟩

/-- C1 witness: a config with a nil router is rejected with the
configuration error, and the valid `cfg0` passes validation. -/
theorem claim1_witness :
    New cfgNoRouter = .error (GoErr.mk ("Router can\x27t be nil")) ∧
    cfg0.Validate = none :=
  ⟨(claim1_validate_exactly cfgNoRouter).2.1 _ (by decide),
   ((claim1_validate_exactly cfg0).1).mpr (by decide)⟩

/-- C2: `Stop` is idempotent.  Every completed `Stop` leaves the
shutdown flag set, and on a controller whose flag is set any later
`Stop` call (concurrent calls are serialized by the mutex, so each runs
as some later call) returns `nil` immediately, with no listener
operation in its trace and no shutdown work: only the first invocation
performs the shutdown work. -/
theorem claim2_stop_idempotent (s : Server) (ctx ctx2 : GoContext)
    (env env2 : StopEnv) (r : StopResult)
    (h1 : s.Stop ctx env = .ok r) :
    r.server.shutdown = true ∧
    r.server.Stop ctx2 env2 = .ok
      { server := r.server, ret := none
        events := [.startSpan, .lock, .unlock, .spanEnd]
        abandonedCloseTask := false, spanCtx := ctx2 } ∧
    ([Ev.startSpan, Ev.lock, Ev.unlock, Ev.spanEnd].filter Ev.isListenerOp) = [] := by
  obtain ⟨hsh, hm, -⟩ := stop_ok_flag s ctx env r h1
  exact ⟨hsh, stop_already_shutdown _ ctx2 env2 hm hsh, rfl⟩

/-- C2 witness: after a first `Stop` of the concrete server (here one
that ended in the timeout path), a second `Stop` returns `nil` with no
listener operation. -/
theorem claim2_witness :
    ∃ r, srvW.Stop ctx0 envTimeout = .ok r ∧
      r.server.Stop ctxCancelled envGraceful = .ok
        { server := r.server, ret := none
          events := [.startSpan, .lock, .unlock, .spanEnd]
          abandonedCloseTask := false, spanCtx := ctxCancelled } :=
  ⟨_, rfl, (claim2_stop_idempotent srvW ctx0 ctxCancelled envTimeout envGraceful _ rfl).2.1⟩

/-- C3: on a first `Stop` whose graceful phase reports no error, `Stop`
returns `nil`, and the forced-close path is never invoked: no `Close`,
no keep-alive change, no timer, no race, no abandoned task, and the
underlying server state is untouched apart from the flag. -/
theorem claim3_graceful_skips_forced (s : Server) (hs : HttpSrv)
    (lg : GoLogger) (ctx : GoContext) (env : StopEnv) (r : StopResult)
    (hm : s.mutexPtr = true) (hsh : s.shutdown = false)
    (hp : s.httpPtr = some hs) (hl : hs.errorLog = some lg)
    (hg : env.shutdownResult = none)
    (h : s.Stop ctx env = .ok r) :
    r.ret = none ∧
    containsEv Ev.opClose r.events = false ∧
    containsEv (Ev.opSetKeepAlives false) r.events = false ∧
    containsEv Ev.raceBegin r.events = false ∧
    (∀ d, containsEv (Ev.timerNew d) r.events = false) ∧
    r.abandonedCloseTask = false ∧
    r.server.httpPtr = some hs := by
  rw [stop_graceful s hs lg ctx env hm hsh hp hl hg] at h
  injection h with h
  subst h
  refine ⟨rfl, rfl, rfl, rfl, fun d => rfl, rfl, ?_⟩
  simp [hp]

/-- C3 witness: the concrete server under the graceful environment. -/
theorem claim3_witness :
    ∃ r, srvW.Stop ctx0 envGraceful = .ok r ∧
      r.ret = none ∧ containsEv Ev.raceBegin r.events = false :=
  ⟨_, rfl,
   (claim3_graceful_skips_forced srvW hsW lgW ctx0 envGraceful _
      rfl rfl rfl rfl rfl rfl).1,
   (claim3_graceful_skips_forced srvW hsW lgW ctx0 envGraceful _
      rfl rfl rfl rfl rfl rfl).2.2.2.1⟩

/-- C4: on a first `Stop` whose graceful phase reports an error and
where the forced close completes before the timer fires, `Stop` returns
the close operation result — `nil` on a clean close, the wrapped
forced-close error otherwise — and keep-alives are disabled on the
listener before `Stop` returns. -/
theorem claim4_forced_close_wins (s : Server) (hs : HttpSrv)
    (lg : GoLogger) (g : GoErr) (ctx : GoContext) (env : StopEnv) (r : StopResult)
    (hm : s.mutexPtr = true) (hsh : s.shutdown = false)
    (hp : s.httpPtr = some hs) (hl : hs.errorLog = some lg)
    (hg : env.shutdownResult = some g) (ht : env.timerFirst = false)
    (h : s.Stop ctx env = .ok r) :
    r.ret = env.closeResult.map forcedCloseError ∧
    (env.closeResult = none → r.ret = none) ∧
    (∀ e, env.closeResult = some e → r.ret = some (forcedCloseError e)) ∧
    r.server.httpPtr = some { hs with keepAlivesEnabled := false } ∧
    containsEv (Ev.opSetKeepAlives false) r.events = true ∧
    containsEv Ev.opClose r.events = true ∧
    r.abandonedCloseTask = false := by
  rw [stop_close_first s hs lg g ctx env hm hsh hp hl hg ht] at h
  injection h with h
  subst h
  refine ⟨rfl, ?_, ?_, rfl, by simp [containsEv], by simp [containsEv], rfl⟩
  · intro hc
    simp [hc]
  · intro e hc
    simp [hc]

/-- C4 witness: concrete runs for a clean forced close and for a failing
forced close. -/
theorem claim4_witness :
    (∃ r, srvW.Stop ctx0 envCloseClean = .ok r ∧ r.ret = none) ∧
    (∃ r, srvW.Stop ctx0 envCloseErr = .ok r ∧
      r.ret = some (forcedCloseError (GoErr.mk ("close failed")))) :=
  ⟨⟨_, rfl, (claim4_forced_close_wins srvW hsW lgW (GoErr.mk ("context deadline exceeded"))
      ctx0 envCloseClean _ rfl rfl rfl rfl rfl rfl rfl).2.1 rfl⟩,
   ⟨_, rfl, (claim4_forced_close_wins srvW hsW lgW (GoErr.mk ("context deadline exceeded"))
      ctx0 envCloseErr _ rfl rfl rfl rfl rfl rfl rfl).2.2.1 _ rfl⟩⟩

/-- C5: on a first `Stop` whose graceful phase reports an error and
where the timer of stop-timeout duration fires before the forced close
completes, `Stop` returns the shutdown-timeout error, and the
forced-close task is abandoned rather than awaited: no receive from the
closing channel appears in the trace and the task is left running. -/
theorem claim5_timer_wins (s : Server) (hs : HttpSrv)
    (lg : GoLogger) (g : GoErr) (ctx : GoContext) (env : StopEnv) (r : StopResult)
    (hm : s.mutexPtr = true) (hsh : s.shutdown = false)
    (hp : s.httpPtr = some hs) (hl : hs.errorLog = some lg)
    (hg : env.shutdownResult = some g) (ht : env.timerFirst = true)
    (h : s.Stop ctx env = .ok r) :
    r.ret = some shutdownTimeoutError ∧
    r.abandonedCloseTask = true ∧
    containsEv Ev.closeRecv r.events = false ∧
    containsEv Ev.timerFired r.events = true := by
  rw [stop_timer_first s hs lg g ctx env hm hsh hp hl hg ht] at h
  injection h with h
  subst h
  exact ⟨rfl, rfl, rfl, by simp [containsEv]⟩

/-- C5 witness: the concrete server under the timeout environment. -/
theorem claim5_witness :
    ∃ r, srvW.Stop ctx0 envTimeout = .ok r ∧
      r.ret = some shutdownTimeoutError ∧ r.abandonedCloseTask = true :=
  ⟨_, rfl,
   (claim5_timer_wins srvW hsW lgW (GoErr.mk ("context deadline exceeded"))
      ctx0 envTimeout _ rfl rfl rfl rfl rfl rfl rfl).1,
   (claim5_timer_wins srvW hsW lgW (GoErr.mk ("context deadline exceeded"))
      ctx0 envTimeout _ rfl rfl rfl rfl rfl rfl rfl).2.1⟩

/-- C6 counterexample: the claim that the mutual-exclusion lock is
released before the forced-phase race begins is false on the code —
`Stop` unlocks via `defer`, which runs when `Stop` returns, after the
`select` race.  Instantiated at a concrete forced-phase run, the unlock
event does not precede the race entry. -/
theorem claim6_counterexample :
    ¬ (∀ (s : Server) (ctx : GoContext) (env : StopEnv) (r : StopResult),
        s.Stop ctx env = .ok r → containsEv Ev.raceBegin r.events = true →
        precedes Ev.unlock Ev.raceBegin r.events = true) := by
  intro hcl
  have h := hcl srvW ctx0 envTimeout _ rfl (by decide)
  exact absurd h (by decide)

/-- C6 (amended): the lock is acquired before the flag check-and-set
and held through the graceful phase AND the forced-phase race; it is
released only when `Stop` returns, so in every forced-phase run the
unlock event follows the race entry (the forced-close work itself runs
on a separate goroutine that never takes the lock). -/
theorem claim6_lock_held_through_race (s : Server) (ctx : GoContext)
    (env : StopEnv) (r : StopResult)
    (h : s.Stop ctx env = .ok r)
    (hr : containsEv Ev.raceBegin r.events = true) :
    precedes Ev.lock Ev.setFlag r.events = true ∧
    precedes Ev.setFlag Ev.opShutdown r.events = true ∧
    precedes Ev.opShutdown Ev.raceBegin r.events = true ∧
    precedes Ev.raceBegin Ev.unlock r.events = true ∧
    precedes Ev.unlock Ev.raceBegin r.events = false := by
  obtain ⟨t, m, sh, hp⟩ := s
  obtain ⟨sr, cr, tf⟩ := env
  cases m
  · simp [Server.Stop] at h
  · cases sh
    · rcases hp with _ | hs
      · simp [Server.Stop] at h
      · rcases hE : hs.errorLog with _ | lg
        · simp [Server.Stop, hE] at h
        · rcases sr with _ | g
          · simp [Server.Stop, hE] at h
            subst h
            simp [containsEv] at hr
          · cases tf
            · simp [Server.Stop, hE] at h
              subst h
              exact ⟨rfl, rfl, rfl, rfl, rfl⟩
            · simp [Server.Stop, hE] at h
              subst h
              exact ⟨rfl, rfl, rfl, rfl, rfl⟩
    · simp [Server.Stop] at h
      subst h
      simp [containsEv] at hr

/-- C6 witness: a concrete forced-phase run in which the lock-ordering
facts hold. -/
theorem claim6_witness :
    ∃ r, srvW.Stop ctx0 envTimeout = .ok r ∧
      precedes Ev.raceBegin Ev.unlock r.events = true :=
  ⟨_, rfl,
   (claim6_lock_held_through_race srvW ctx0 envTimeout _ rfl (by decide)).2.2.2.1⟩

/-- C7: the caller-supplied context is used only for the tracing span.
For any two contexts — including an already-cancelled one or one with a
shorter deadline — `Stop` produces the same state, return value, event
trace and abandonment status; and every deadline created during shutdown
(the graceful-phase `context.WithTimeout` and the forced-phase timer) is
a fresh one carrying the configured stop-timeout. -/
theorem claim7_ctx_only_for_tracing (s : Server) (ctxA ctxB : GoContext)
    (env : StopEnv) :
    ((s.Stop ctxA env).map StopResult.core =
      (s.Stop ctxB env).map StopResult.core) ∧
    (∀ r d, s.Stop ctxA env = .ok r →
      (containsEv (Ev.ctxWithTimeout d) r.events = true ∨
       containsEv (Ev.timerNew d) r.events = true) →
      d = s.stopTimeout) := by
  obtain ⟨t, m, sh, hp⟩ := s
  obtain ⟨sr, cr, tf⟩ := env
  constructor
  · cases m
    · rfl
    · cases sh
      · rcases hp with _ | hs
        · rfl
        · rcases hE : hs.errorLog with _ | lg
          · simp [Server.Stop, hE]
          · rcases sr with _ | g
            · simp [Server.Stop, hE, StopResult.core, Except.map]
            · cases tf <;> simp [Server.Stop, hE, StopResult.core, Except.map]
      · rfl
  · intro r d h hmem
    cases m
    · simp [Server.Stop] at h
    · cases sh
      · rcases hp with _ | hs
        · simp [Server.Stop] at h
        · rcases hE : hs.errorLog with _ | lg
          · simp [Server.Stop, hE] at h
          · rcases sr with _ | g
            · simp [Server.Stop, hE] at h
              subst h
              simp [containsEv] at hmem
              show d = t
              omega
            · cases tf
              · simp [Server.Stop, hE] at h
                subst h
                simp [containsEv] at hmem
                show d = t
                omega
              · simp [Server.Stop, hE] at h
                subst h
                simp [containsEv] at hmem
                show d = t
                omega
      · simp [Server.Stop] at h
        subst h
        simp [containsEv] at hmem

/-- C7 witness: a cancelled context with a short deadline and a live
context yield identical shutdown behaviour on the concrete server, and
the concrete graceful run used the configured stop-timeout (5) for its
fresh deadline. -/
theorem claim7_witness :
    ((srvW.Stop ctxCancelled envGraceful).map StopResult.core =
      (srvW.Stop ctx0 envGraceful).map StopResult.core) ∧ (5 : Int) = srvW.stopTimeout :=
  ⟨(claim7_ctx_only_for_tracing srvW ctxCancelled ctx0 envGraceful).1,
   (claim7_ctx_only_for_tracing srvW ctxCancelled ctx0 envGraceful).2 _ 5 rfl
     (Or.inl (by decide))⟩

/-- Closed form of a successful `New`: the fields of the constructed
controller and listener, with each optional field applied only when
non-zero. -/
theorem new_ok (cfg : Config) (hv : cfg.Validate = none) :
    New cfg = .ok
      (⟨cfg.StopTimeout, true, false,
        some ⟨cfg.Addr, cfg.Router,
          some ⟨cfg.ErrorsOutput.getD ⟨0⟩, "Golang HTTP standard server: ",
            logLstdFlags ||| logLmicroseconds ||| logLlongfile ||| logLshortfile⟩,
          if cfg.ReadTimeout ≠ 0 then cfg.ReadTimeout else 0,
          if cfg.ReadHeaderTimeout ≠ 0 then cfg.ReadHeaderTimeout else 0,
          if cfg.WriteTimeout ≠ 0 then cfg.WriteTimeout else 0,
          if cfg.IdleTimeout ≠ 0 then cfg.IdleTimeout else 0,
          if cfg.MaxHeaderBytes ≠ 0 then cfg.MaxHeaderBytes else 0,
          cfg.KeepAliveEnabled⟩⟩,
       [.opSetKeepAlives cfg.KeepAliveEnabled]) := by
  simp only [New, hv]
  split_ifs <;> rfl

/-- C8: a successful `New` applies each optional duration field and the
max-header-size field to the listener only when non-zero (a zero field
leaves the transport zero-value default), always sets keep-alive from
the config boolean regardless of its value, and returns a fully
constructed, not-yet-shut-down controller without ever starting the
listener (`ListenAndServe` is not among the operations `New` performs). -/
theorem claim8_constructor_fields (cfg : Config) (srv : Server) (evs : List Ev)
    (h : New cfg = .ok (srv, evs)) :
    ∃ hs, srv.httpPtr = some hs ∧
      (cfg.ReadTimeout ≠ 0 → hs.readTimeout = cfg.ReadTimeout) ∧
      (cfg.ReadTimeout = 0 → hs.readTimeout = httpServerZero.readTimeout) ∧
      (cfg.ReadHeaderTimeout ≠ 0 → hs.readHeaderTimeout = cfg.ReadHeaderTimeout) ∧
      (cfg.ReadHeaderTimeout = 0 → hs.readHeaderTimeout = httpServerZero.readHeaderTimeout) ∧
      (cfg.WriteTimeout ≠ 0 → hs.writeTimeout = cfg.WriteTimeout) ∧
      (cfg.WriteTimeout = 0 → hs.writeTimeout = httpServerZero.writeTimeout) ∧
      (cfg.IdleTimeout ≠ 0 → hs.idleTimeout = cfg.IdleTimeout) ∧
      (cfg.IdleTimeout = 0 → hs.idleTimeout = httpServerZero.idleTimeout) ∧
      (cfg.MaxHeaderBytes ≠ 0 → hs.maxHeaderBytes = cfg.MaxHeaderBytes) ∧
      (cfg.MaxHeaderBytes = 0 → hs.maxHeaderBytes = httpServerZero.maxHeaderBytes) ∧
      hs.keepAlivesEnabled = cfg.KeepAliveEnabled ∧
      containsEv Ev.opListenAndServe evs = false ∧
      srv.shutdown = false ∧ srv.mutexPtr = true ∧
      srv.stopTimeout = cfg.StopTimeout := by
  rcases hv : cfg.Validate with _ | e
  · rw [new_ok cfg hv] at h
    injection h with h
    injection h with h1 h2
    subst h1
    subst h2
    refine ⟨_, rfl, ?_, ?_, ?_, ?_, ?_, ?_, ?_, ?_, ?_, ?_, rfl, rfl, rfl, rfl, rfl⟩
      <;> intro hx <;> simp [hx, httpServerZero]
  · simp [New, hv] at h

/-- C8 witness: at the concrete valid config (all optional fields zero,
keep-alive requested), the constructed listener keeps the zero-value
defaults and has keep-alive set. -/
theorem claim8_witness :
    ∃ hs, srvW.httpPtr = some hs ∧ hs.readTimeout = httpServerZero.readTimeout ∧
      hs.keepAlivesEnabled = cfg0.KeepAliveEnabled := by
  obtain ⟨hs, h1, c⟩ := claim8_constructor_fields cfg0 srvW [.opSetKeepAlives true] rfl
  exact ⟨hs, h1, c.2.1 rfl, c.2.2.2.2.2.2.2.2.2.2.1⟩

/-- Every server a successful `New` returns is well-formed. -/
theorem new_wellFormed (cfg : Config) (srv : Server) (evs : List Ev)
    (h : New cfg = .ok (srv, evs)) : srv.wellFormed = true := by
  rcases hv : cfg.Validate with _ | e
  · rw [new_ok cfg hv] at h
    injection h with h
    injection h with h1 h2
    subst h1
    rfl
  · simp [New, hv] at h

/-- `Serve` never panics on a well-formed server. -/
theorem wf_serve_noPanic (s : Server) (hwf : s.wellFormed = true)
    (env : ServeEnv) : noPanic (s.Serve env) = true := by
  obtain ⟨t, m, sh, hp⟩ := s
  rcases hp with _ | hs
  · simp [Server.wellFormed] at hwf
  · rcases hE : hs.errorLog with _ | lg
    · simp [Server.wellFormed, hE] at hwf
    · rcases env with ⟨_ | e⟩ <;> simp [Server.Serve, hE, noPanic]

/-- `Stop` never panics on a well-formed server. -/
theorem wf_stop_noPanic (s : Server) (hwf : s.wellFormed = true)
    (ctx : GoContext) (env : StopEnv) : noPanic (s.Stop ctx env) = true := by
  obtain ⟨t, m, sh, hp⟩ := s
  obtain ⟨sr, cr, tf⟩ := env
  cases m
  · simp [Server.wellFormed] at hwf
  · rcases hp with _ | hs
    · cases sh
      · simp [Server.wellFormed] at hwf
      · rfl
    · rcases hE : hs.errorLog with _ | lg
      · simp [Server.wellFormed, hE] at hwf
      · cases sh
        · rcases sr with _ | g
          · simp [Server.Stop, hE, noPanic]
          · cases tf <;> simp [Server.Stop, hE, noPanic]
        · rfl

/-- A returning `Stop` preserves well-formedness of the controller. -/
theorem stop_preserves_wf (s : Server) (ctx : GoContext) (env : StopEnv)
    (r : StopResult) (hwf : s.wellFormed = true)
    (h : s.Stop ctx env = .ok r) : r.server.wellFormed = true := by
  obtain ⟨t, m, sh, hp⟩ := s
  obtain ⟨sr, cr, tf⟩ := env
  cases m
  · simp [Server.Stop] at h
  · rcases hp with _ | hs
    · cases sh
      · simp [Server.Stop] at h
      · rw [stop_already_shutdown _ ctx ⟨sr, cr, tf⟩ rfl rfl] at h
        injection h with h
        subst h
        exact hwf
    · rcases hE : hs.errorLog with _ | lg
      · simp [Server.wellFormed, hE] at hwf
      · cases sh
        · rcases sr with _ | g
          · simp [Server.Stop, hE] at h
            subst h
            simp [Server.wellFormed, hE]
          · cases tf
            · simp [Server.Stop, hE] at h
              subst h
              simp [Server.wellFormed, hE]
            · simp [Server.Stop, hE] at h
              subst h
              simp [Server.wellFormed, hE]
        · rw [stop_already_shutdown _ ctx ⟨sr, cr, tf⟩ rfl rfl] at h
          injection h with h
          subst h
          exact hwf

/-- C9 counterexample: the claim that no operation can crash for every
input is false on the code — calling `Stop` (or `Serve`) on a `Server`
value not initialized by `New`, such as the zero value with its nil
mutex and nil `http` pointer, panics with a nil dereference, exactly as
the comment on the `Server` struct in the source warns. -/
theorem claim9_counterexample :
    ¬ (∀ (s : Server) (ctx : GoContext) (env : StopEnv) (senv : ServeEnv),
        noPanic (s.Stop ctx env) = true ∧ noPanic (s.Serve senv) = true) := by
  intro hcl
  have h := (hcl srvZero ctx0 envGraceful { listenAndServeResult := none }).1
  exact absurd h (by decide)

/-- C9 (amended): every failure is reported through a returned error
value, with no panic, for `Validate` and `New` on every `Config` (they
are total functions into error-carrying results) and for `Serve` and
`Stop` on every server constructed by `New` — such servers are
well-formed, well-formedness is preserved by `Stop`, and on well-formed
servers neither `Serve` nor `Stop` can panic.  On a `Server` not built
by `New` (nil mutex or nil `http` pointer) the methods do panic, as the
source comment itself documents. -/
theorem claim9_no_panic_when_constructed (cfg : Config) (srv : Server)
    (evs : List Ev) (hnew : New cfg = .ok (srv, evs)) :
    srv.wellFormed = true ∧
    (∀ senv, noPanic (srv.Serve senv) = true) ∧
    (∀ ctx env, noPanic (srv.Stop ctx env) = true) ∧
    (∀ (s : Server), s.wellFormed = true →
      (∀ senv, noPanic (s.Serve senv) = true) ∧
      (∀ ctx env, noPanic (s.Stop ctx env) = true) ∧
      (∀ ctx env r, s.Stop ctx env = .ok r → r.server.wellFormed = true)) := by
  have hwf := new_wellFormed cfg srv evs hnew
  exact ⟨hwf,
    fun senv => wf_serve_noPanic srv hwf senv,
    fun ctx env => wf_stop_noPanic srv hwf ctx env,
    fun s hs => ⟨fun senv => wf_serve_noPanic s hs senv,
      fun ctx env => wf_stop_noPanic s hs ctx env,
      fun ctx env r hr => stop_preserves_wf s ctx env r hs hr⟩⟩

/-- C9 witness: the concrete valid config constructs `srvW`, and on it
`Serve` and `Stop` return rather than panic. -/
theorem claim9_witness :
    noPanic (srvW.Serve senvErr) = true ∧
    noPanic (srvW.Stop ctx0 envTimeout) = true :=
  ⟨(claim9_no_panic_when_constructed cfg0 srvW [.opSetKeepAlives true] rfl).2.1 senvErr,
   (claim9_no_panic_when_constructed cfg0 srvW [.opSetKeepAlives true] rfl).2.2.1 ctx0 envTimeout⟩

/-- C10: the shutdown flag is set before the shutdown outcome is known
and never reverts: any first `Stop` call that returns — regardless of
whether it returned `nil`, a forced-close error, or the timeout error —
leaves the flag set, and every subsequent `Stop` call returns `nil`
doing nothing, so a failed shutdown can never be retried through
`Stop`. -/
theorem claim10_flag_sticks (s : Server) (ctx : GoContext) (env : StopEnv)
    (r : StopResult) (_hsh : s.shutdown = false)
    (h : s.Stop ctx env = .ok r) :
    r.server.shutdown = true ∧
    (∀ ctx2 env2, r.server.Stop ctx2 env2 = .ok
      { server := r.server, ret := none
        events := [.startSpan, .lock, .unlock, .spanEnd]
        abandonedCloseTask := false, spanCtx := ctx2 }) := by
  obtain ⟨hflag, hm, -⟩ := stop_ok_flag s ctx env r h
  exact ⟨hflag, fun ctx2 env2 => stop_already_shutdown _ ctx2 env2 hm hflag⟩

/-- C10 witness: a concrete first `Stop` that failed with the timeout
error still leaves the flag set, and a retry (under an environment in
which even the forced close would fail again) returns `nil` untouched. -/
theorem claim10_witness :
    ∃ r, srvW.Stop ctx0 envTimeout = .ok r ∧
      r.ret = some shutdownTimeoutError ∧
      r.server.shutdown = true ∧
      r.server.Stop ctx0 envCloseErr = .ok
        { server := r.server, ret := none
          events := [.startSpan, .lock, .unlock, .spanEnd]
          abandonedCloseTask := false, spanCtx := ctx0 } :=
  ⟨_, rfl, rfl,
   (claim10_flag_sticks srvW ctx0 envTimeout _ rfl rfl).1,
   (claim10_flag_sticks srvW ctx0 envTimeout _ rfl rfl).2 ctx0 envCloseErr⟩
